import Mathlib

/-! # Gokapi: resolution of the configuration from the process environment

A shallow embedding of `internal/environment/Environment.go`, followed by the
JSON form of a file record of `internal/models`, of which only the test is
among the sources.

Modelling conventions.

* A Go `string` is a Lean `String`; concatenation is `++`.  Environment values
  that are not valid UTF-8 have no counterpart in this model.
* A Go `int` is a Lean `Int`.  The package performs no arithmetic on integers
  (only comparisons), so no wrap-around can occur; the width of `int` matters
  only inside `strconv.Atoi`, where it is the explicit parameter `intSize`
  (32 or 64 on the platforms Go supports).
* The process environment is an explicit argument `env`, the function computed
  by `os.LookupEnv`: `none` when the variable is absent, `some v` when it is
  present with value `v` (possibly empty).
* A panic is `Except.error msg`; a normal return is `Except.ok`.
* `strings.ToLower` consults the Unicode case tables for runes outside ASCII.
  Those tables are data of the Go distribution, not of this repository; they
  are the explicit parameter `caseTable`, and every statement below holds for
  every table.
-/

namespace Gokapi

/-! ## Standard library: `os`, `strconv`, `strings`, `reflect` -/

/-- The function computed by `os.LookupEnv` in a given process. -/
abbrev Env := String → Option String

/-- The environment in which no variable is set. -/
def emptyEnv : Env := fun _ => none

/-- The environment `env` with variable `name` set to `value` (`os.Setenv`). -/
def setenv (env : Env) (name value : String) : Env :=
  fun k => if k = name then some value else env k

/-- The environment `env` with variable `name` removed (`os.Unsetenv`). -/
def unsetenv (env : Env) (name : String) : Env :=
  fun k => if k = name then none else env k

/-- Decimal digit test of `strconv`: the byte `ch - '0'` is at most 9. -/
def isDigit (c : Char) : Bool :=
  decide (48 ≤ c.toNat) && decide (c.toNat ≤ 57)

/-- Value of a string of decimal digits, most significant first
(`n = n*10 + int(ch - '0')` for each byte). -/
def digitsValue (ds : List Char) : Nat :=
  ds.foldl (fun n ch => n * 10 + (ch.toNat - 48)) 0

/-- Go `strconv.Atoi` for an `int` of `intSize` bits: `some n` when the error
is nil, `none` when it is not.  The accepted syntax is an optional sign `+` or
`-` followed by one or more decimal digits and nothing else (a syntax error
otherwise); the value must lie in `[-2^(intSize-1), 2^(intSize-1) - 1]`
(a range error otherwise). -/
def Atoi (intSize : Nat) (s : String) : Option Int :=
  match s.data with
  | [] => none
  | c :: cs =>
    let neg : Bool := c == '-'
    let ds := if c == '-' || c == '+' then cs else c :: cs
    if ds.isEmpty || !ds.all isDigit then none
    else
      let un := digitsValue ds
      let cutoff := 2 ^ (intSize - 1)
      if neg then
        if un > cutoff then none else some (-(un : Int))
      else
        if un ≥ cutoff then none else some (un : Int)

/-- Lower-casing of an ASCII byte: `'A'..'Z'` move by `'a' - 'A'`. -/
def asciiLower (c : Char) : Char :=
  if 65 ≤ c.toNat ∧ c.toNat ≤ 90 then Char.ofNat (c.toNat + 32) else c

/-- Go `unicode.ToLower`: ASCII runes are handled directly, every other rune
is looked up in the Unicode case tables, here `caseTable`. -/
def unicodeToLower (caseTable : Char → Char) (r : Char) : Char :=
  if r.toNat ≤ 127 then asciiLower r else caseTable r

/-- Go `strings.ToLower`: a string of ASCII bytes only is returned as it is
when it has no upper-case letter and has `'A'..'Z'` lower-cased otherwise; any
other string has `unicode.ToLower` mapped over its runes. -/
def ToLower (caseTable : Char → Char) (s : String) : String :=
  let isASCII := s.data.all (fun c => decide (c.toNat < 128))
  let hasUpper := s.data.any (fun c => decide (65 ≤ c.toNat) && decide (c.toNat ≤ 90))
  if isASCII then
    if !hasUpper then s else String.mk (s.data.map asciiLower)
  else String.mk (s.data.map (unicodeToLower caseTable))

/-- What `reflect.Value.FieldByName` can return for the default record: the
zero Value (no such field), a string field or an integer field. -/
inductive Value where
  | invalid
  | string (s : String)
  | int (i : Int)
deriving DecidableEq, Repr

/-- Go `reflect.Value.IsValid`: false exactly for the zero Value. -/
def Value.IsValid : Value → Bool
  | .invalid => false
  | _ => true

/-- Go `reflect.Value.String`: the underlying string of a string Value; for any
other kind it does not panic but returns a description of the kind. -/
def Value.StringOf : Value → String
  | .invalid => "<invalid Value>"
  | .string s => s
  | .int _ => "<int Value>"

/-- Go `reflect.Value.Int`: the underlying integer of an integer Value; it
panics for every other kind. -/
def Value.IntOf : Value → Except String Int
  | .invalid => .error "reflect: call of reflect.Value.Int on zero Value"
  | .string _ => .error "reflect: call of reflect.Value.Int on string Value"
  | .int i => .ok i

/-! ## The package `environment` -/

/-- IsTrue is a placeholder for yes. -/
def IsTrue : String := "yes"

/-- IsFalse is a placeholder for no. -/
def IsFalse : String := "no"

/-- Environment is a struct containing available env variables. -/
structure Environment where
  ConfigDir : String
  ConfigFile : String
  ConfigPath : String
  DataDir : String
  AdminName : String
  AdminPassword : String
  WebserverPort : String
  WebserverLocalhost : String
  ExternalUrl : String
  RedirectUrl : String
  SaltAdmin : String
  SaltFiles : String
  LengthId : Int
  MaxMemory : Int
  UseSsl : String
  AwsBucket : String
  AwsRegion : String
  AwsKeyId : String
  AwsKeySecret : String
  AwsEndpoint : String
deriving DecidableEq, Repr

/-- IsAwsProvided returns true if all required env variables have been set for
using AWS S3 / Backblaze. -/
def Environment.IsAwsProvided (e : Environment) : Bool :=
  e.AwsBucket != "" &&
    e.AwsRegion != "" &&
    e.AwsKeyId != "" &&
    e.AwsKeySecret != ""

/-- The record of default values, with the fields in the order of the Go
declaration. -/
structure defaultsEnvironment where
  CONFIG_DIR : String
  CONFIG_FILE : String
  DATA_DIR : String
  SALT_ADMIN : String
  SALT_FILES : String
  LENGTH_ID : Int
  MAX_MEMORY_UPLOAD_MB : Int
deriving DecidableEq, Repr

/-- The package variable `defaultValues`; the two fields the literal leaves out
have the zero value of their type. -/
def defaultValues : defaultsEnvironment where
  CONFIG_DIR := "config"
  CONFIG_FILE := "config.json"
  DATA_DIR := "data"
  SALT_ADMIN := ""
  SALT_FILES := ""
  LENGTH_ID := 15
  MAX_MEMORY_UPLOAD_MB := 20

/-- The expression `reflect.ValueOf(structPointer).Elem().FieldByName(name)`:
the field of that exact name, or the zero Value when there is none. -/
def defaultsEnvironment.FieldByName (d : defaultsEnvironment) (name : String) : Value :=
  if name = "CONFIG_DIR" then .string d.CONFIG_DIR
  else if name = "CONFIG_FILE" then .string d.CONFIG_FILE
  else if name = "DATA_DIR" then .string d.DATA_DIR
  else if name = "SALT_ADMIN" then .string d.SALT_ADMIN
  else if name = "SALT_FILES" then .string d.SALT_FILES
  else if name = "LENGTH_ID" then .int d.LENGTH_ID
  else if name = "MAX_MEMORY_UPLOAD_MB" then .int d.MAX_MEMORY_UPLOAD_MB
  else .invalid

/-- Gets the env variable or default value as string. -/
def defaultsEnvironment.getString (structPointer : defaultsEnvironment) (name : String) :
    String :=
  let field := structPointer.FieldByName name
  if field.IsValid then field.StringOf else ""

/-- Gets the env variable or default value as int.  The conversion `int(...)`
of the Go source is the identity on the value of a field of type `int`. -/
def defaultsEnvironment.getInt (structPointer : defaultsEnvironment) (name : String) :
    Except String Int :=
  let field := structPointer.FieldByName name
  if field.IsValid then field.IntOf else .ok (-1)

/-- Looks up an environment variable or returns an empty string. -/
def envString (env : Env) (key : String) : String :=
  match env ("GOKAPI_" ++ key) with
  | none => defaultValues.getString key
  | some val => val

/-- Looks up a boolean environment variable, returns either IsFalse or IsTrue. -/
def envBool (caseTable : Char → Char) (env : Env) (key : String) : String :=
  match env ("GOKAPI_" ++ key) with
  | none => ""
  | some val =>
    let valLower := ToLower caseTable val
    if valLower = "true" ∨ valLower = "yes" then IsTrue
    else if valLower = "false" ∨ valLower = "no" then IsFalse
    else ""

/-- Looks up an integer environment variable: the default when the variable is
absent, -1 when its value is no integer, the value raised to `minValue`
otherwise. -/
def envInt (intSize : Nat) (env : Env) (key : String) (minValue : Int) : Except String Int :=
  match env ("GOKAPI_" ++ key) with
  | none => defaultValues.getInt key
  | some val =>
    match Atoi intSize val with
    | none => .ok (-1)
    | some intVal => if intVal < minValue then .ok minValue else .ok intVal

/-- New parses the env variables. -/
def New (intSize : Nat) (caseTable : Char → Char) (env : Env) : Except String Environment := do
  let configDir := envString env "CONFIG_DIR"
  let configFile := envString env "CONFIG_FILE"
  let configPath := configDir ++ "/" ++ configFile
  let dataDir := envString env "DATA_DIR"
  let adminName := envString env "USERNAME"
  let adminPassword := envString env "PASSWORD"
  let webserverPort := envString env "PORT"
  let externalUrl := envString env "EXTERNAL_URL"
  let redirectUrl := envString env "REDIRECT_URL"
  let saltAdmin := envString env "SALT_ADMIN"
  let saltFiles := envString env "SALT_FILES"
  let webserverLocalhost := envBool caseTable env "LOCALHOST"
  let lengthId ← envInt intSize env "LENGTH_ID" 5
  let maxMemory ← envInt intSize env "MAX_MEMORY_UPLOAD_MB" 5
  let useSsl := envBool caseTable env "USE_SSL"
  let awsBucket := envString env "AWS_BUCKET"
  let awsRegion := envString env "AWS_REGION"
  let awsKeyId := envString env "AWS_KEY"
  let awsKeySecret := envString env "AWS_KEY_SECRET"
  let awsEndpoint := envString env "AWS_ENDPOINT"
  return {
    ConfigDir := configDir
    ConfigFile := configFile
    ConfigPath := configPath
    DataDir := dataDir
    AdminName := adminName
    AdminPassword := adminPassword
    WebserverPort := webserverPort
    ExternalUrl := externalUrl
    RedirectUrl := redirectUrl
    SaltAdmin := saltAdmin
    SaltFiles := saltFiles
    WebserverLocalhost := webserverLocalhost
    LengthId := lengthId
    MaxMemory := maxMemory
    UseSsl := useSsl
    AwsBucket := awsBucket
    AwsRegion := awsRegion
    AwsKeyId := awsKeyId
    AwsKeySecret := awsKeySecret
    AwsEndpoint := awsEndpoint }

/-! ## The package `models`: the JSON form of a file record

Of this package only the test `TestToJsonResult` is among the sources; the
record `File` and the method `ToJsonResult` are modelled from the spec and from
that test. -/

/-- Modelled from the spec: the file-metadata record `File`, whose declaration
is missing from the sources.  The fields are those the spec lists, in its
order; ExpireAt and DownloadsRemaining are integers, the others strings.  A
field a Go literal leaves out has the zero value, as AwsBucket in the test. -/
structure File where
  Id : String
  Name : String
  Size : String
  SHA256 : String
  ExpireAt : Int
  ExpireAtString : String
  DownloadsRemaining : Int
  PasswordHash : String
  HotlinkId : String
  ContentType : String
  AwsBucket : String := ""
deriving DecidableEq, Repr

/-- Lower-case hexadecimal digit of a number below 16. -/
def hexDigit (n : Nat) : Char :=
  if n < 10 then Char.ofNat (48 + n) else Char.ofNat (87 + n)

/-- Modelled from the spec: the characters a JSON string cannot hold as they
are, with their escaped form as Go's `encoding/json` writes it: the double
quote and the backslash get a backslash in front; line feed, carriage return
and tab become `\n`, `\r`, `\t`; the other control characters, the characters
`<`, `>`, `&` and the separators U+2028 and U+2029 become `\u` and four
hexadecimal digits.  Every other character stands for itself. -/
def jsonEscapeChar (c : Char) : List Char :=
  let n := c.toNat
  if n = 34 then [Char.ofNat 92, Char.ofNat 34]
  else if n = 92 then [Char.ofNat 92, Char.ofNat 92]
  else if n = 10 then [Char.ofNat 92, 'n']
  else if n = 13 then [Char.ofNat 92, 'r']
  else if n = 9 then [Char.ofNat 92, 't']
  else if n < 32 ∨ n = 60 ∨ n = 62 ∨ n = 38 then
    [Char.ofNat 92, 'u', '0', '0', hexDigit (n / 16), hexDigit (n % 16)]
  else if n = 8232 then [Char.ofNat 92, 'u', '2', '0', '2', '8']
  else if n = 8233 then [Char.ofNat 92, 'u', '2', '0', '2', '9']
  else [c]

/-- A string needs no JSON escaping when each of its characters stands for
itself in a JSON string. -/
def needsNoEscape (s : String) : Bool :=
  s.data.all (fun c => jsonEscapeChar c == [c])

/-- Modelled from the spec: a string value "serialized as a JSON string": its
characters, escaped where needed, between double quotes; the empty string is
a pair of double quotes. -/
def jsonString (s : String) : String :=
  "\"" ++ String.mk (s.data.map jsonEscapeChar).flatten ++ "\""

/-- Modelled from the spec: an integer value "serialized as a JSON number": its
decimal digits, after a minus sign when it is negative. -/
def jsonNumber (i : Int) : String :=
  toString i

/-- Modelled from the spec: one JSON object holding the given members, each a
key and an already serialized value, in the order given. -/
def jsonObject (members : List (String × String)) : String :=
  "\x7b" ++ ",".intercalate (members.map (fun m => jsonString m.1 ++ ":" ++ m.2)) ++ "\x7d"

/-- Modelled from the spec: the object under the key FileInfo, with the eleven
fields of the record in the fixed order of the spec; no member is left out
when its value is empty. -/
def File.fileInfoJson (f : File) : String :=
  jsonObject [
    ("Id", jsonString f.Id),
    ("Name", jsonString f.Name),
    ("Size", jsonString f.Size),
    ("SHA256", jsonString f.SHA256),
    ("ExpireAt", jsonNumber f.ExpireAt),
    ("ExpireAtString", jsonString f.ExpireAtString),
    ("DownloadsRemaining", jsonNumber f.DownloadsRemaining),
    ("PasswordHash", jsonString f.PasswordHash),
    ("HotlinkId", jsonString f.HotlinkId),
    ("ContentType", jsonString f.ContentType),
    ("AwsBucket", jsonString f.AwsBucket)]

/-- The first ten members of the FileInfo object, before AwsBucket. -/
def File.membersBeforeAwsBucket (f : File) : List (String × String) :=
  [("Id", jsonString f.Id),
    ("Name", jsonString f.Name),
    ("Size", jsonString f.Size),
    ("SHA256", jsonString f.SHA256),
    ("ExpireAt", jsonNumber f.ExpireAt),
    ("ExpireAtString", jsonString f.ExpireAtString),
    ("DownloadsRemaining", jsonNumber f.DownloadsRemaining),
    ("PasswordHash", jsonString f.PasswordHash),
    ("HotlinkId", jsonString f.HotlinkId),
    ("ContentType", jsonString f.ContentType)]

/-- Modelled from the spec: the method `File.ToJsonResult`, whose body is
missing from the sources.  It returns one JSON object with the keys Result,
FileInfo, Url and HotlinkUrl in this order: Result is "OK", FileInfo is the
record, Url is `baseUrl` followed by "d?id=" and HotlinkUrl is `baseUrl`
followed by "hotlink/". -/
def File.ToJsonResult (f : File) (baseUrl : String) : String :=
  jsonObject [
    ("Result", jsonString "OK"),
    ("FileInfo", f.fileInfoJson),
    ("Url", jsonString (baseUrl ++ "d?id=")),
    ("HotlinkUrl", jsonString (baseUrl ++ "hotlink/"))]

/-- The record of the test `TestToJsonResult`. -/
def testFile : File where
  Id := "testId"
  Name := "testName"
  Size := "10 B"
  SHA256 := "sha256"
  ExpireAt := 50
  ExpireAtString := "future"
  DownloadsRemaining := 1
  PasswordHash := "pwhash"
  HotlinkId := "hotlinkid"
  ContentType := "text/html"

/-! ## Auxiliary facts -/

/-- With the variable present, `envInt` is decided by `Atoi` alone. -/
theorem envInt_of_present (intSize : Nat) (env : Env) (key v : String) (minValue : Int)
    (hv : env ("GOKAPI_" ++ key) = some v) :
    envInt intSize env key minValue =
      match Atoi intSize v with
      | none => .ok (-1)
      | some intVal => if intVal < minValue then .ok minValue else .ok intVal := by
  simp only [envInt, hv]

/-- With the variable absent, `envInt` is the reflective lookup of the default. -/
theorem envInt_of_absent (intSize : Nat) (env : Env) (key : String) (minValue : Int)
    (hv : env ("GOKAPI_" ++ key) = none) :
    envInt intSize env key minValue = defaultValues.getInt key := by
  simp only [envInt, hv]

/-- With the variable absent, `envString` is the reflective lookup of the default. -/
theorem envString_of_absent (env : Env) (key : String)
    (hv : env ("GOKAPI_" ++ key) = none) :
    envString env key = defaultValues.getString key := by
  simp only [envString, hv]

/-- On a key whose default is an integer, `envInt` returns: the default when
the variable is absent, -1 when its value does not parse, and the parsed value
raised to `minValue` otherwise. -/
theorem envInt_of_intDefault (intSize : Nat) (env : Env) (key : String) (minValue d : Int)
    (hd : defaultValues.getInt key = .ok d) :
    ∃ n, envInt intSize env key minValue = .ok n ∧
      ((env ("GOKAPI_" ++ key) = none ∧ n = d) ∨
        (∃ v, env ("GOKAPI_" ++ key) = some v ∧ Atoi intSize v = none ∧ n = -1) ∨
        (∃ v m, env ("GOKAPI_" ++ key) = some v ∧ Atoi intSize v = some m ∧
          n = max m minValue)) := by
  cases h : env ("GOKAPI_" ++ key) with
  | none =>
    exact ⟨d, by rw [envInt_of_absent intSize env key minValue h, hd], Or.inl ⟨rfl, rfl⟩⟩
  | some v =>
    rw [envInt_of_present intSize env key v minValue h]
    cases hp : Atoi intSize v with
    | none => exact ⟨-1, rfl, Or.inr (Or.inl ⟨v, rfl, hp, rfl⟩)⟩
    | some m =>
      refine ⟨max m minValue, ?_, Or.inr (Or.inr ⟨v, m, rfl, hp, rfl⟩)⟩
      simp only
      by_cases hlt : m < minValue
      · rw [if_pos hlt, max_eq_right (le_of_lt hlt)]
      · rw [if_neg hlt, max_eq_left (not_lt.mp hlt)]

/-- The record `New` returns once its two integer lookups have returned. -/
theorem New_of_ints (intSize : Nat) (caseTable : Char → Char) (env : Env)
    (lengthId maxMemory : Int)
    (h1 : envInt intSize env "LENGTH_ID" 5 = .ok lengthId)
    (h2 : envInt intSize env "MAX_MEMORY_UPLOAD_MB" 5 = .ok maxMemory) :
    New intSize caseTable env = .ok {
      ConfigDir := envString env "CONFIG_DIR"
      ConfigFile := envString env "CONFIG_FILE"
      ConfigPath := envString env "CONFIG_DIR" ++ "/" ++ envString env "CONFIG_FILE"
      DataDir := envString env "DATA_DIR"
      AdminName := envString env "USERNAME"
      AdminPassword := envString env "PASSWORD"
      WebserverPort := envString env "PORT"
      WebserverLocalhost := envBool caseTable env "LOCALHOST"
      ExternalUrl := envString env "EXTERNAL_URL"
      RedirectUrl := envString env "REDIRECT_URL"
      SaltAdmin := envString env "SALT_ADMIN"
      SaltFiles := envString env "SALT_FILES"
      LengthId := lengthId
      MaxMemory := maxMemory
      UseSsl := envBool caseTable env "USE_SSL"
      AwsBucket := envString env "AWS_BUCKET"
      AwsRegion := envString env "AWS_REGION"
      AwsKeyId := envString env "AWS_KEY"
      AwsKeySecret := envString env "AWS_KEY_SECRET"
      AwsEndpoint := envString env "AWS_ENDPOINT" } := by
  unfold New
  rw [h1, h2]
  rfl

/-- The two integer lookups of `New` always return, so `New` returns this
record. -/
theorem New_returns (intSize : Nat) (caseTable : Char → Char) (env : Env) :
    ∃ lengthId maxMemory,
      envInt intSize env "LENGTH_ID" 5 = .ok lengthId ∧
      envInt intSize env "MAX_MEMORY_UPLOAD_MB" 5 = .ok maxMemory ∧
      New intSize caseTable env = .ok {
        ConfigDir := envString env "CONFIG_DIR"
        ConfigFile := envString env "CONFIG_FILE"
        ConfigPath := envString env "CONFIG_DIR" ++ "/" ++ envString env "CONFIG_FILE"
        DataDir := envString env "DATA_DIR"
        AdminName := envString env "USERNAME"
        AdminPassword := envString env "PASSWORD"
        WebserverPort := envString env "PORT"
        WebserverLocalhost := envBool caseTable env "LOCALHOST"
        ExternalUrl := envString env "EXTERNAL_URL"
        RedirectUrl := envString env "REDIRECT_URL"
        SaltAdmin := envString env "SALT_ADMIN"
        SaltFiles := envString env "SALT_FILES"
        LengthId := lengthId
        MaxMemory := maxMemory
        UseSsl := envBool caseTable env "USE_SSL"
        AwsBucket := envString env "AWS_BUCKET"
        AwsRegion := envString env "AWS_REGION"
        AwsKeyId := envString env "AWS_KEY"
        AwsKeySecret := envString env "AWS_KEY_SECRET"
        AwsEndpoint := envString env "AWS_ENDPOINT" } := by
  obtain ⟨a, ha, -⟩ := envInt_of_intDefault intSize env "LENGTH_ID" 5 15 rfl
  obtain ⟨b, hb, -⟩ := envInt_of_intDefault intSize env "MAX_MEMORY_UPLOAD_MB" 5 20 rfl
  exact ⟨a, b, ha, hb, New_of_ints intSize caseTable env a b ha hb⟩

/-! ## Integer variables -/

/-- C1: when `GOKAPI_<key>` is present and `strconv.Atoi` parses its value as
`n`, `envInt key minValue` returns `max n minValue`: `minValue` when
`n < minValue`, and `n` unchanged when `n >= minValue`.  The result depends on
`n` and `minValue` only, for every key, also one for which the default lookup
would give something else or panic. -/
theorem envInt_parsed_clamps (intSize : Nat) (env : Env) (key v : String) (minValue n : Int)
    (hv : env ("GOKAPI_" ++ key) = some v) (hn : Atoi intSize v = some n) :
    envInt intSize env key minValue = .ok (max n minValue) ∧
      (n < minValue → envInt intSize env key minValue = .ok minValue) ∧
      (minValue ≤ n → envInt intSize env key minValue = .ok n) := by
  rw [envInt_of_present intSize env key v minValue hv, hn]
  simp only
  by_cases h : n < minValue
  · rw [if_pos h]
    refine ⟨?_, fun _ => rfl, fun h2 => absurd h (not_lt.mpr h2)⟩
    rw [max_eq_right (le_of_lt h)]
  · rw [if_neg h]
    refine ⟨?_, fun h2 => absurd h2 h, fun _ => rfl⟩
    rw [max_eq_left (not_lt.mp h)]

/-- Witness for C1: `GOKAPI_LENGTH_ID=3` with floor 5 gives 5, and
`GOKAPI_CONFIG_DIR=7` read as an integer with floor 5 gives 7, although the
default record holds a string under that name. -/
theorem envInt_parsed_clamps_witness :
    (envInt 64 (setenv emptyEnv "GOKAPI_LENGTH_ID" "3") "LENGTH_ID" 5 = .ok (max 3 5) ∧
      ((3 : Int) < 5 → envInt 64 (setenv emptyEnv "GOKAPI_LENGTH_ID" "3") "LENGTH_ID" 5 = .ok 5) ∧
      ((5 : Int) ≤ 3 → envInt 64 (setenv emptyEnv "GOKAPI_LENGTH_ID" "3") "LENGTH_ID" 5 = .ok 3)) ∧
    (envInt 64 (setenv emptyEnv "GOKAPI_CONFIG_DIR" "7") "CONFIG_DIR" 5 = .ok (max 7 5) ∧
      ((7 : Int) < 5 → envInt 64 (setenv emptyEnv "GOKAPI_CONFIG_DIR" "7") "CONFIG_DIR" 5 = .ok 5) ∧
      ((5 : Int) ≤ 7 → envInt 64 (setenv emptyEnv "GOKAPI_CONFIG_DIR" "7") "CONFIG_DIR" 5 = .ok 7)) :=
  ⟨envInt_parsed_clamps 64 (setenv emptyEnv "GOKAPI_LENGTH_ID" "3") "LENGTH_ID" "3" 5 3 rfl rfl,
   envInt_parsed_clamps 64 (setenv emptyEnv "GOKAPI_CONFIG_DIR" "7") "CONFIG_DIR" "7" 5 7 rfl rfl⟩

/-- C2: when `GOKAPI_<key>` is present and `strconv.Atoi` rejects its value,
`envInt key minValue` returns exactly -1 and does not panic, for every key and
every `minValue`. -/
theorem envInt_unparsed_sentinel (intSize : Nat) (env : Env) (key v : String) (minValue : Int)
    (hv : env ("GOKAPI_" ++ key) = some v) (hn : Atoi intSize v = none) :
    envInt intSize env key minValue = .ok (-1) := by
  rw [envInt_of_present intSize env key v minValue hv, hn]

/-- Witness for C2: the values "", "abc", " 7" and "7.5" are rejected by `Atoi`
and give -1, with a floor below -1, a very large floor, and keys with and
without a declared default. -/
theorem envInt_unparsed_sentinel_witness :
    Atoi 64 "" = none ∧ Atoi 64 "abc" = none ∧ Atoi 32 " 7" = none ∧ Atoi 64 "7.5" = none ∧
    envInt 64 (setenv emptyEnv "GOKAPI_LENGTH_ID" "") "LENGTH_ID" 5 = .ok (-1) ∧
    envInt 64 (setenv emptyEnv "GOKAPI_MAX_MEMORY_UPLOAD_MB" "abc") "MAX_MEMORY_UPLOAD_MB" (-7)
      = .ok (-1) ∧
    envInt 32 (setenv emptyEnv "GOKAPI_PORT" " 7") "PORT" 9223372036854775807 = .ok (-1) ∧
    envInt 64 (setenv emptyEnv "GOKAPI_CONFIG_DIR" "7.5") "CONFIG_DIR" 0 = .ok (-1) :=
  ⟨rfl, rfl, rfl, rfl,
   envInt_unparsed_sentinel 64 (setenv emptyEnv "GOKAPI_LENGTH_ID" "") "LENGTH_ID" "" 5 rfl rfl,
   envInt_unparsed_sentinel 64 (setenv emptyEnv "GOKAPI_MAX_MEMORY_UPLOAD_MB" "abc")
     "MAX_MEMORY_UPLOAD_MB" "abc" (-7) rfl rfl,
   envInt_unparsed_sentinel 32 (setenv emptyEnv "GOKAPI_PORT" " 7") "PORT" " 7"
     9223372036854775807 rfl rfl,
   envInt_unparsed_sentinel 64 (setenv emptyEnv "GOKAPI_CONFIG_DIR" "7.5") "CONFIG_DIR" "7.5" 0
     rfl rfl⟩

/-! ## Tri-state variables -/

/-- With the variable present, `envBool` is decided by the lower-cased value. -/
theorem envBool_of_present (caseTable : Char → Char) (env : Env) (key v : String)
    (hv : env ("GOKAPI_" ++ key) = some v) :
    envBool caseTable env key =
      if ToLower caseTable v = "true" ∨ ToLower caseTable v = "yes" then "yes"
      else if ToLower caseTable v = "false" ∨ ToLower caseTable v = "no" then "no"
      else "" := by
  simp only [envBool, hv, IsTrue, IsFalse]

/-- With the variable absent, `envBool` is the empty string. -/
theorem envBool_of_absent (caseTable : Char → Char) (env : Env) (key : String)
    (hv : env ("GOKAPI_" ++ key) = none) :
    envBool caseTable env key = "" := by
  simp only [envBool, hv]

/-- The three results of `envBool` are the only ones. -/
theorem envBool_mem (caseTable : Char → Char) (env : Env) (key : String) :
    envBool caseTable env key = "yes" ∨ envBool caseTable env key = "no" ∨
      envBool caseTable env key = "" := by
  cases h : env ("GOKAPI_" ++ key) with
  | none => exact Or.inr (Or.inr (envBool_of_absent caseTable env key h))
  | some v =>
    rw [envBool_of_present caseTable env key v h]
    by_cases h1 : ToLower caseTable v = "true" ∨ ToLower caseTable v = "yes"
    · rw [if_pos h1]; exact Or.inl rfl
    · rw [if_neg h1]
      by_cases h2 : ToLower caseTable v = "false" ∨ ToLower caseTable v = "no"
      · rw [if_pos h2]; exact Or.inr (Or.inl rfl)
      · rw [if_neg h2]; exact Or.inr (Or.inr rfl)

/-- C3: `envBool key` is "yes" exactly when `GOKAPI_<key>` is present and its
lower-cased value is "true" or "yes"; it is "no" exactly when the variable is
present and its lower-cased value is "false" or "no"; it is "" exactly in every
other case, in particular when the variable is absent.  The values "TRUE",
"true", "Yes", "YES" give "yes"; "false", "No", "FALSE", "no" give "no"; "",
"1", "on", " yes" give "". -/
theorem envBool_tristate (caseTable : Char → Char) (env : Env) (key : String) :
    (envBool caseTable env key = "yes" ↔
      ∃ v, env ("GOKAPI_" ++ key) = some v ∧
        (ToLower caseTable v = "true" ∨ ToLower caseTable v = "yes")) ∧
    (envBool caseTable env key = "no" ↔
      ∃ v, env ("GOKAPI_" ++ key) = some v ∧
        (ToLower caseTable v = "false" ∨ ToLower caseTable v = "no")) ∧
    (envBool caseTable env key = "" ↔
      ¬ ∃ v, env ("GOKAPI_" ++ key) = some v ∧
        (ToLower caseTable v = "true" ∨ ToLower caseTable v = "yes" ∨
          ToLower caseTable v = "false" ∨ ToLower caseTable v = "no")) ∧
    (env ("GOKAPI_" ++ key) = none → envBool caseTable env key = "") ∧
    (∀ v ∈ ["TRUE", "true", "Yes", "YES"],
      env ("GOKAPI_" ++ key) = some v → envBool caseTable env key = "yes") ∧
    (∀ v ∈ ["false", "No", "FALSE", "no"],
      env ("GOKAPI_" ++ key) = some v → envBool caseTable env key = "no") ∧
    (∀ v ∈ ["", "1", "on", " yes"],
      env ("GOKAPI_" ++ key) = some v → envBool caseTable env key = "") := by
  refine ⟨?_, ?_, ?_, envBool_of_absent caseTable env key, ?_, ?_, ?_⟩
  · cases h : env ("GOKAPI_" ++ key) with
    | none => simp [envBool_of_absent caseTable env key h]
    | some v =>
      rw [envBool_of_present caseTable env key v h]
      by_cases h1 : ToLower caseTable v = "true" ∨ ToLower caseTable v = "yes"
      · simp [h1]
      · by_cases h2 : ToLower caseTable v = "false" ∨ ToLower caseTable v = "no"
        · simp [h1, h2]
        · simp [h1, h2]
  · cases h : env ("GOKAPI_" ++ key) with
    | none => simp [envBool_of_absent caseTable env key h]
    | some v =>
      rw [envBool_of_present caseTable env key v h]
      by_cases h1 : ToLower caseTable v = "true" ∨ ToLower caseTable v = "yes"
      · have h2 : ¬ (ToLower caseTable v = "false" ∨ ToLower caseTable v = "no") := by
          rcases h1 with h1 | h1 <;> simp [h1]
        simp [h1, h2]
      · by_cases h2 : ToLower caseTable v = "false" ∨ ToLower caseTable v = "no"
        · simp [h1, h2]
        · simp [h1, h2]
  · cases h : env ("GOKAPI_" ++ key) with
    | none => simp [envBool_of_absent caseTable env key h]
    | some v =>
      rw [envBool_of_present caseTable env key v h]
      by_cases h1 : ToLower caseTable v = "true" ∨ ToLower caseTable v = "yes"
      · rcases h1 with h1 | h1 <;> simp [h1]
      · by_cases h2 : ToLower caseTable v = "false" ∨ ToLower caseTable v = "no"
        · rcases h2 with h2 | h2 <;> simp [h2]
        · rw [not_or] at h1 h2
          simp [h1.1, h1.2, h2.1, h2.2]
  · intro v hv he
    rw [envBool_of_present caseTable env key v he]
    simp only [List.mem_cons, List.mem_singleton, List.not_mem_nil, or_false] at hv
    rcases hv with rfl | rfl | rfl | rfl <;> rfl
  · intro v hv he
    rw [envBool_of_present caseTable env key v he]
    simp only [List.mem_cons, List.mem_singleton, List.not_mem_nil, or_false] at hv
    rcases hv with rfl | rfl | rfl | rfl <;> rfl
  · intro v hv he
    rw [envBool_of_present caseTable env key v he]
    simp only [List.mem_cons, List.mem_singleton, List.not_mem_nil, or_false] at hv
    rcases hv with rfl | rfl | rfl | rfl <;> rfl

/-! ## Defaults -/

/-- C4: in every environment `New` returns a record in which each field with a
declared default holds that default when its variable is absent: ConfigDir is
"config", ConfigFile is "config.json", DataDir is "data", LengthId is 15 and
MaxMemory is 20.  On the empty environment `New` returns these five values,
ConfigPath "config/config.json", and the empty string in every other field. -/
theorem New_declared_defaults (intSize : Nat) (caseTable : Char → Char) (env : Env) :
    (∃ e, New intSize caseTable env = .ok e ∧
      (env "GOKAPI_CONFIG_DIR" = none → e.ConfigDir = "config") ∧
      (env "GOKAPI_CONFIG_FILE" = none → e.ConfigFile = "config.json") ∧
      (env "GOKAPI_DATA_DIR" = none → e.DataDir = "data") ∧
      (env "GOKAPI_LENGTH_ID" = none → e.LengthId = 15) ∧
      (env "GOKAPI_MAX_MEMORY_UPLOAD_MB" = none → e.MaxMemory = 20)) ∧
    New intSize caseTable emptyEnv = .ok {
      ConfigDir := "config"
      ConfigFile := "config.json"
      ConfigPath := "config/config.json"
      DataDir := "data"
      AdminName := ""
      AdminPassword := ""
      WebserverPort := ""
      WebserverLocalhost := ""
      ExternalUrl := ""
      RedirectUrl := ""
      SaltAdmin := ""
      SaltFiles := ""
      LengthId := 15
      MaxMemory := 20
      UseSsl := ""
      AwsBucket := ""
      AwsRegion := ""
      AwsKeyId := ""
      AwsKeySecret := ""
      AwsEndpoint := "" } := by
  refine ⟨?_, rfl⟩
  obtain ⟨a, b, ha, hb, hN⟩ := New_returns intSize caseTable env
  refine ⟨_, hN, ?_, ?_, ?_, ?_, ?_⟩
  · intro h
    exact envString_of_absent env "CONFIG_DIR" h
  · intro h
    exact envString_of_absent env "CONFIG_FILE" h
  · intro h
    exact envString_of_absent env "DATA_DIR" h
  · intro h
    have := envInt_of_absent intSize env "LENGTH_ID" 5 h
    rw [ha] at this
    exact Except.ok.inj this
  · intro h
    have := envInt_of_absent intSize env "MAX_MEMORY_UPLOAD_MB" 5 h
    rw [hb] at this
    exact Except.ok.inj this

/-! ## Remote storage -/

/-- C5: `IsAwsProvided` is true exactly when AwsBucket, AwsRegion, AwsKeyId and
AwsKeySecret are all non-empty; it is false as soon as one of them is empty;
it does not change with AwsEndpoint, and two records with the same four fields
give the same answer whatever their other fields hold. -/
theorem IsAwsProvided_iff_four_nonempty (e : Environment) :
    (e.IsAwsProvided = true ↔
      e.AwsBucket ≠ "" ∧ e.AwsRegion ≠ "" ∧ e.AwsKeyId ≠ "" ∧ e.AwsKeySecret ≠ "") ∧
    (e.AwsBucket = "" ∨ e.AwsRegion = "" ∨ e.AwsKeyId = "" ∨ e.AwsKeySecret = "" →
      e.IsAwsProvided = false) ∧
    (∀ endpoint : String, ({ e with AwsEndpoint := endpoint }).IsAwsProvided = e.IsAwsProvided) ∧
    (∀ e2 : Environment, e2.AwsBucket = e.AwsBucket → e2.AwsRegion = e.AwsRegion →
      e2.AwsKeyId = e.AwsKeyId → e2.AwsKeySecret = e.AwsKeySecret →
      e2.IsAwsProvided = e.IsAwsProvided) := by
  refine ⟨?_, ?_, fun _ => rfl, ?_⟩
  · simp only [Environment.IsAwsProvided, Bool.and_eq_true, bne_iff_ne, ne_eq, and_assoc]
  · intro h
    rw [← Bool.not_eq_true]
    intro ht
    simp only [Environment.IsAwsProvided, Bool.and_eq_true, bne_iff_ne, ne_eq, and_assoc] at ht
    rcases h with h | h | h | h
    · exact ht.1 h
    · exact ht.2.1 h
    · exact ht.2.2.1 h
    · exact ht.2.2.2 h
  · intro e2 h1 h2 h3 h4
    simp only [Environment.IsAwsProvided, h1, h2, h3, h4]

/-! ## The resolved record -/

/-- C6: in every environment `New` returns a record whose ConfigPath is
ConfigDir, "/" and ConfigFile joined, where ConfigDir and ConfigFile are the
results of looking up CONFIG_DIR and CONFIG_FILE.  ConfigPath is decided by the
two variables GOKAPI_CONFIG_DIR and GOKAPI_CONFIG_FILE: an environment that
agrees on these two gives the same ConfigPath whatever else it holds, a
variable GOKAPI_CONFIG_PATH included. -/
theorem New_ConfigPath_joined (intSize : Nat) (caseTable : Char → Char) (env : Env) :
    ∃ e, New intSize caseTable env = .ok e ∧
      e.ConfigPath = e.ConfigDir ++ "/" ++ e.ConfigFile ∧
      e.ConfigDir = envString env "CONFIG_DIR" ∧
      e.ConfigFile = envString env "CONFIG_FILE" ∧
      (∀ path : String, ∃ e2, New intSize caseTable (setenv env "GOKAPI_CONFIG_PATH" path) = .ok e2 ∧
        e2.ConfigPath = e.ConfigPath) ∧
      (∀ env2 : Env, env2 "GOKAPI_CONFIG_DIR" = env "GOKAPI_CONFIG_DIR" →
        env2 "GOKAPI_CONFIG_FILE" = env "GOKAPI_CONFIG_FILE" →
        ∃ e2, New intSize caseTable env2 = .ok e2 ∧ e2.ConfigPath = e.ConfigPath) := by
  obtain ⟨a, b, -, -, hN⟩ := New_returns intSize caseTable env
  have key : ∀ env2 : Env, env2 "GOKAPI_CONFIG_DIR" = env "GOKAPI_CONFIG_DIR" →
      env2 "GOKAPI_CONFIG_FILE" = env "GOKAPI_CONFIG_FILE" →
      ∃ e2, New intSize caseTable env2 = .ok e2 ∧
        e2.ConfigPath = envString env "CONFIG_DIR" ++ "/" ++ envString env "CONFIG_FILE" := by
    intro env2 hd hf
    obtain ⟨a2, b2, -, -, hN2⟩ := New_returns intSize caseTable env2
    refine ⟨_, hN2, ?_⟩
    have e1 : envString env2 "CONFIG_DIR" = envString env "CONFIG_DIR" := by
      show (match env2 "GOKAPI_CONFIG_DIR" with
        | none => defaultValues.getString "CONFIG_DIR"
        | some val => val) = _
      rw [hd]; rfl
    have e2 : envString env2 "CONFIG_FILE" = envString env "CONFIG_FILE" := by
      show (match env2 "GOKAPI_CONFIG_FILE" with
        | none => defaultValues.getString "CONFIG_FILE"
        | some val => val) = _
      rw [hf]; rfl
    show envString env2 "CONFIG_DIR" ++ "/" ++ envString env2 "CONFIG_FILE" = _
    rw [e1, e2]
  refine ⟨_, hN, rfl, rfl, rfl, ?_, key⟩
  intro path
  exact key (setenv env "GOKAPI_CONFIG_PATH" path) rfl rfl

/-- C7: in every environment `New` returns a record whose LengthId is -1 or at
least 5 and whose MaxMemory is -1 or at least 5. -/
theorem New_ints_sentinel_or_floor (intSize : Nat) (caseTable : Char → Char) (env : Env) :
    ∃ e, New intSize caseTable env = .ok e ∧
      (e.LengthId = -1 ∨ 5 ≤ e.LengthId) ∧ (e.MaxMemory = -1 ∨ 5 ≤ e.MaxMemory) := by
  obtain ⟨a, ha, hcA⟩ := envInt_of_intDefault intSize env "LENGTH_ID" 5 15 rfl
  obtain ⟨b, hb, hcB⟩ := envInt_of_intDefault intSize env "MAX_MEMORY_UPLOAD_MB" 5 20 rfl
  refine ⟨_, New_of_ints intSize caseTable env a b ha hb, ?_, ?_⟩
  · show a = -1 ∨ 5 ≤ a
    rcases hcA with ⟨-, h⟩ | ⟨v, -, -, h⟩ | ⟨v, m, -, -, h⟩
    · right; rw [h]; decide
    · left; exact h
    · right; rw [h]; exact le_max_right m 5
  · show b = -1 ∨ 5 ≤ b
    rcases hcB with ⟨-, h⟩ | ⟨v, -, -, h⟩ | ⟨v, m, -, -, h⟩
    · right; rw [h]; decide
    · left; exact h
    · right; rw [h]; exact le_max_right m 5

/-- C8: in every environment `New` returns a record whose WebserverLocalhost is
"yes", "no" or "", and whose UseSsl is "yes", "no" or ""; they are the results
of `envBool` on LOCALHOST and USE_SSL. -/
theorem New_tristate_fields (intSize : Nat) (caseTable : Char → Char) (env : Env) :
    ∃ e, New intSize caseTable env = .ok e ∧
      (e.WebserverLocalhost = "yes" ∨ e.WebserverLocalhost = "no" ∨ e.WebserverLocalhost = "") ∧
      (e.UseSsl = "yes" ∨ e.UseSsl = "no" ∨ e.UseSsl = "") ∧
      e.WebserverLocalhost = envBool caseTable env "LOCALHOST" ∧
      e.UseSsl = envBool caseTable env "USE_SSL" := by
  obtain ⟨a, b, -, -, hN⟩ := New_returns intSize caseTable env
  exact ⟨_, hN, envBool_mem caseTable env "LOCALHOST", envBool_mem caseTable env "USE_SSL",
    rfl, rfl⟩

/-! ## String variables -/

/-- C9: when `GOKAPI_<key>` is present with value `v`, `envString key` returns
`v` itself, whatever `v` is; for the key CONFIG_DIR the record of `New` then
has ConfigDir equal to `v`, so a present variable overrides the default. -/
theorem envString_present_raw (env : Env) (key v : String)
    (hv : env ("GOKAPI_" ++ key) = some v) :
    envString env key = v ∧
      (key = "CONFIG_DIR" → ∀ (intSize : Nat) (caseTable : Char → Char),
        ∃ e, New intSize caseTable env = .ok e ∧ e.ConfigDir = v) := by
  have h : envString env key = v := by simp only [envString, hv]
  refine ⟨h, ?_⟩
  intro hk intSize caseTable
  obtain ⟨a, b, -, -, hN⟩ := New_returns intSize caseTable env
  refine ⟨_, hN, ?_⟩
  show envString env "CONFIG_DIR" = v
  rw [← hk]
  exact h

/-- Witness for C9: `GOKAPI_CONFIG_DIR` present and empty gives the empty
string and not "config"; a value of blanks and a value in mixed case come back
unchanged. -/
theorem envString_present_raw_witness :
    (envString (setenv emptyEnv "GOKAPI_CONFIG_DIR" "") "CONFIG_DIR" = "" ∧
      ("CONFIG_DIR" = "CONFIG_DIR" → ∀ (intSize : Nat) (caseTable : Char → Char),
        ∃ e, New intSize caseTable (setenv emptyEnv "GOKAPI_CONFIG_DIR" "") = .ok e ∧
          e.ConfigDir = "")) ∧
    envString (setenv emptyEnv "GOKAPI_DATA_DIR" "   ") "DATA_DIR" = "   " ∧
    envString (setenv emptyEnv "GOKAPI_PORT" " MiXed Case ") "PORT" = " MiXed Case " ∧
    envString emptyEnv "CONFIG_DIR" = "config" :=
  ⟨envString_present_raw (setenv emptyEnv "GOKAPI_CONFIG_DIR" "") "CONFIG_DIR" "" rfl,
   (envString_present_raw (setenv emptyEnv "GOKAPI_DATA_DIR" "   ") "DATA_DIR" "   " rfl).1,
   (envString_present_raw (setenv emptyEnv "GOKAPI_PORT" " MiXed Case ") "PORT" " MiXed Case " rfl).1,
   rfl⟩

/-! ## Names without a declared default -/

/-- C10, as stated, fails: SALT_ADMIN has no declared default and
`GOKAPI_SALT_ADMIN` is absent from the empty environment, yet
`envInt "SALT_ADMIN" 5` does not return -1: the default record has a string
field of that name and `reflect.Value.Int` panics on it.  In the same way
`getInt` is not total: it panics on CONFIG_DIR. -/
theorem envInt_SALT_ADMIN_panics :
    "SALT_ADMIN" ∉ ["CONFIG_DIR", "CONFIG_FILE", "DATA_DIR", "LENGTH_ID",
      "MAX_MEMORY_UPLOAD_MB"] ∧
    emptyEnv ("GOKAPI_" ++ "SALT_ADMIN") = none ∧
    envInt 64 emptyEnv "SALT_ADMIN" 5 =
      .error "reflect: call of reflect.Value.Int on string Value" ∧
    envInt 64 emptyEnv "SALT_ADMIN" 5 ≠ .ok (-1) ∧
    defaultValues.getInt "CONFIG_DIR" =
      .error "reflect: call of reflect.Value.Int on string Value" := by
  refine ⟨by decide, rfl, rfl, ?_, rfl⟩
  rw [show envInt 64 emptyEnv "SALT_ADMIN" 5 =
    .error "reflect: call of reflect.Value.Int on string Value" from rfl]
  intro h
  cases h

/-- C10, amended: for every name without a declared default and every
environment in which `GOKAPI_<name>` is absent, `envString name` and
`getString name` return the empty string; when moreover the name is not a
string field of the default record (it is neither SALT_ADMIN nor SALT_FILES),
`envInt name minValue` and `getInt name` return -1. -/
theorem absent_without_default (env : Env) (name : String)
    (hname : name ∉ ["CONFIG_DIR", "CONFIG_FILE", "DATA_DIR", "LENGTH_ID",
      "MAX_MEMORY_UPLOAD_MB"])
    (habs : env ("GOKAPI_" ++ name) = none) :
    envString env name = "" ∧ defaultValues.getString name = "" ∧
      (name ≠ "SALT_ADMIN" → name ≠ "SALT_FILES" →
        defaultValues.getInt name = .ok (-1) ∧
        ∀ (intSize : Nat) (minValue : Int), envInt intSize env name minValue = .ok (-1)) := by
  simp only [List.mem_cons, List.mem_singleton, List.not_mem_nil, or_false, not_or] at hname
  obtain ⟨h1, h2, h3, h4, h5⟩ := hname
  have hs : defaultValues.getString name = "" := by
    simp only [defaultsEnvironment.getString, defaultsEnvironment.FieldByName, h1, h2, h3, h4, h5,
      if_false]
    by_cases h6 : name = "SALT_ADMIN"
    · simp only [h6, if_true]; rfl
    · by_cases h7 : name = "SALT_FILES"
      · rw [if_neg h6, if_pos h7]; rfl
      · rw [if_neg h6, if_neg h7]; rfl
  refine ⟨by rw [envString_of_absent env name habs, hs], hs, ?_⟩
  intro h6 h7
  have hi : defaultValues.getInt name = .ok (-1) := by
    simp only [defaultsEnvironment.getInt, defaultsEnvironment.FieldByName, h1, h2, h3, h4, h5,
      h6, h7, if_false]
    rfl
  exact ⟨hi, fun intSize minValue => by rw [envInt_of_absent intSize env name minValue habs, hi]⟩

/-- Witness for C10: PORT and an unknown name give "" and -1 on the empty
environment; SALT_ADMIN gives "" as a string. -/
theorem absent_without_default_witness :
    (envString emptyEnv "PORT" = "" ∧ defaultValues.getString "PORT" = "" ∧
      ("PORT" ≠ "SALT_ADMIN" → "PORT" ≠ "SALT_FILES" →
        defaultValues.getInt "PORT" = .ok (-1) ∧
        ∀ (intSize : Nat) (minValue : Int), envInt intSize emptyEnv "PORT" minValue = .ok (-1))) ∧
    envString emptyEnv "no such name" = "" ∧
    envInt 64 emptyEnv "no such name" 5 = .ok (-1) ∧
    envString emptyEnv "SALT_ADMIN" = "" :=
  ⟨absent_without_default emptyEnv "PORT" (by decide) rfl,
   (absent_without_default emptyEnv "no such name" (by decide) rfl).1,
   ((absent_without_default emptyEnv "no such name" (by decide) rfl).2.2
     (by decide) (by decide)).2 64 5,
   (absent_without_default emptyEnv "SALT_ADMIN" (by decide) rfl).1⟩

/-! ## Lookups depend on one variable only -/

/-- Two environments that agree on `GOKAPI_<key>` give the same `envString`. -/
theorem envString_congr (env1 env2 : Env) (key : String)
    (h : env1 ("GOKAPI_" ++ key) = env2 ("GOKAPI_" ++ key)) :
    envString env1 key = envString env2 key := by
  simp only [envString, h]

/-- Two environments that agree on `GOKAPI_<key>` give the same `envBool`. -/
theorem envBool_congr (caseTable : Char → Char) (env1 env2 : Env) (key : String)
    (h : env1 ("GOKAPI_" ++ key) = env2 ("GOKAPI_" ++ key)) :
    envBool caseTable env1 key = envBool caseTable env2 key := by
  simp only [envBool, h]

/-- Two environments that agree on `GOKAPI_<key>` give the same `envInt`. -/
theorem envInt_congr (intSize : Nat) (env1 env2 : Env) (key : String) (minValue : Int)
    (h : env1 ("GOKAPI_" ++ key) = env2 ("GOKAPI_" ++ key)) :
    envInt intSize env1 key minValue = envInt intSize env2 key minValue := by
  simp only [envInt, h]

/-- The string "-1" parses as -1 for every width of `int`. -/
theorem Atoi_minus_one (intSize : Nat) : Atoi intSize "-1" = some (-1) := by
  have h : ¬ (1 > 2 ^ (intSize - 1)) := not_lt.mpr Nat.one_le_two_pow
  show (if (1 : Nat) > 2 ^ (intSize - 1) then none else some (-((1 : Nat) : Int))) = some (-1)
  rw [if_neg h]
  rfl

/-! ## `New` never panics -/

/-- C11: in every environment `New` returns a record and does not panic.  The
two names it passes to `envInt`, hence to `getInt`, are integer fields of the
default record; each of the fifteen names it passes to `envString`, hence to
`getString`, is a string field of the default record or no field of it. -/
theorem New_never_panics (intSize : Nat) (caseTable : Char → Char) (env : Env) :
    (∃ e, New intSize caseTable env = .ok e) ∧
    (∀ key ∈ ["LENGTH_ID", "MAX_MEMORY_UPLOAD_MB"],
      (∃ i, defaultValues.FieldByName key = .int i) ∧
      (∃ n, defaultValues.getInt key = .ok n) ∧
      ∃ n, envInt intSize env key 5 = .ok n) ∧
    (∀ key ∈ ["CONFIG_DIR", "CONFIG_FILE", "DATA_DIR", "USERNAME", "PASSWORD", "PORT",
        "EXTERNAL_URL", "REDIRECT_URL", "SALT_ADMIN", "SALT_FILES", "AWS_BUCKET",
        "AWS_REGION", "AWS_KEY", "AWS_KEY_SECRET", "AWS_ENDPOINT"],
      (∃ s, defaultValues.FieldByName key = .string s) ∨
        defaultValues.FieldByName key = .invalid) := by
  obtain ⟨a, b, ha, hb, hN⟩ := New_returns intSize caseTable env
  refine ⟨⟨_, hN⟩, ?_, ?_⟩
  · intro key hkey
    simp only [List.mem_cons, List.mem_singleton, List.not_mem_nil, or_false] at hkey
    rcases hkey with rfl | rfl
    · exact ⟨⟨15, rfl⟩, ⟨15, rfl⟩, ⟨a, ha⟩⟩
    · exact ⟨⟨20, rfl⟩, ⟨20, rfl⟩, ⟨b, hb⟩⟩
  · intro key hkey
    simp only [List.mem_cons, List.mem_singleton, List.not_mem_nil, or_false] at hkey
    rcases hkey with rfl | rfl | rfl | rfl | rfl | rfl | rfl | rfl | rfl | rfl | rfl | rfl |
      rfl | rfl | rfl
    · exact Or.inl ⟨"config", rfl⟩
    · exact Or.inl ⟨"config.json", rfl⟩
    · exact Or.inl ⟨"data", rfl⟩
    · exact Or.inr rfl
    · exact Or.inr rfl
    · exact Or.inr rfl
    · exact Or.inr rfl
    · exact Or.inr rfl
    · exact Or.inl ⟨"", rfl⟩
    · exact Or.inl ⟨"", rfl⟩
    · exact Or.inr rfl
    · exact Or.inr rfl
    · exact Or.inr rfl
    · exact Or.inr rfl
    · exact Or.inr rfl

/-! ## The sentinel -1 -/

/-- On a key whose default is an integer other than -1, with a floor above -1,
`envInt` returns -1 exactly when the variable is present and does not parse. -/
theorem envInt_sentinel_iff (intSize : Nat) (env : Env) (key : String) (minValue d n : Int)
    (hd : defaultValues.getInt key = .ok d) (hd1 : d ≠ -1) (hmin : -1 < minValue)
    (hn : envInt intSize env key minValue = .ok n) :
    n = -1 ↔ ∃ v, env ("GOKAPI_" ++ key) = some v ∧ Atoi intSize v = none := by
  obtain ⟨n2, hn2, hc⟩ := envInt_of_intDefault intSize env key minValue d hd
  have hnn : n2 = n := by
    rw [hn2] at hn
    exact Except.ok.inj hn
  subst hnn
  rcases hc with ⟨habs, h⟩ | ⟨v, hv, hp, h⟩ | ⟨v, m, hv, hp, h⟩
  · constructor
    · intro h1
      exact absurd (h ▸ h1) hd1
    · rintro ⟨v, hv, -⟩
      rw [habs] at hv
      cases hv
  · exact ⟨fun _ => ⟨v, hv, hp⟩, fun _ => h⟩
  · constructor
    · intro h1
      have h2 : minValue ≤ n2 := h ▸ le_max_right m minValue
      omega
    · rintro ⟨v2, hv2, hp2⟩
      rw [hv] at hv2
      cases hv2
      rw [hp] at hp2
      cases hp2

/-- C14: in every environment the record of `New` has LengthId equal to -1
exactly when GOKAPI_LENGTH_ID is present with a value that does not parse as an
integer, and MaxMemory equal to -1 exactly when GOKAPI_MAX_MEMORY_UPLOAD_MB is
present with a value that does not parse.  A value that parses as a negative
number gives 5, the value "-1" included, and an absent variable gives the
default 15 or 20. -/
theorem New_sentinel_iff_unparsed (intSize : Nat) (caseTable : Char → Char) (env : Env) :
    ∃ e, New intSize caseTable env = .ok e ∧
      (e.LengthId = -1 ↔
        ∃ v, env "GOKAPI_LENGTH_ID" = some v ∧ Atoi intSize v = none) ∧
      (e.MaxMemory = -1 ↔
        ∃ v, env "GOKAPI_MAX_MEMORY_UPLOAD_MB" = some v ∧ Atoi intSize v = none) ∧
      (∀ v n, env "GOKAPI_LENGTH_ID" = some v → Atoi intSize v = some n → n < 0 →
        e.LengthId = 5) ∧
      (∀ v n, env "GOKAPI_MAX_MEMORY_UPLOAD_MB" = some v → Atoi intSize v = some n → n < 0 →
        e.MaxMemory = 5) ∧
      (env "GOKAPI_LENGTH_ID" = some "-1" → e.LengthId = 5) ∧
      (env "GOKAPI_MAX_MEMORY_UPLOAD_MB" = some "-1" → e.MaxMemory = 5) ∧
      (env "GOKAPI_LENGTH_ID" = none → e.LengthId = 15) ∧
      (env "GOKAPI_MAX_MEMORY_UPLOAD_MB" = none → e.MaxMemory = 20) := by
  obtain ⟨a, b, ha, hb, hN⟩ := New_returns intSize caseTable env
  have neg : ∀ (key v : String) (n r : Int), env ("GOKAPI_" ++ key) = some v →
      Atoi intSize v = some n → n < 0 → envInt intSize env key 5 = .ok r → r = 5 := by
    intro key v n r hv hp hlt hr
    rw [envInt_of_present intSize env key v 5 hv, hp] at hr
    simp only at hr
    rw [if_pos (by omega)] at hr
    exact (Except.ok.inj hr).symm
  have dflt : ∀ (key : String) (d r : Int), env ("GOKAPI_" ++ key) = none →
      defaultValues.getInt key = .ok d → envInt intSize env key 5 = .ok r → r = d := by
    intro key d r hv hd hr
    rw [envInt_of_absent intSize env key 5 hv, hd] at hr
    exact (Except.ok.inj hr).symm
  refine ⟨_, hN, ?_, ?_, ?_, ?_, ?_, ?_, ?_, ?_⟩
  · exact envInt_sentinel_iff intSize env "LENGTH_ID" 5 15 a rfl (by decide) (by decide) ha
  · exact envInt_sentinel_iff intSize env "MAX_MEMORY_UPLOAD_MB" 5 20 b rfl (by decide)
      (by decide) hb
  · intro v n hv hp hlt
    exact neg "LENGTH_ID" v n a hv hp hlt ha
  · intro v n hv hp hlt
    exact neg "MAX_MEMORY_UPLOAD_MB" v n b hv hp hlt hb
  · intro hv
    exact neg "LENGTH_ID" "-1" (-1) a hv (Atoi_minus_one intSize) (by decide) ha
  · intro hv
    exact neg "MAX_MEMORY_UPLOAD_MB" "-1" (-1) b hv (Atoi_minus_one intSize) (by decide) hb
  · intro hv
    exact dflt "LENGTH_ID" 15 a hv rfl ha
  · intro hv
    exact dflt "MAX_MEMORY_UPLOAD_MB" 20 b hv rfl hb

/-! ## Fields resolve independently -/

/-- C15: for any two environments, `New` returns a record in each, and every
field is the same in both records as soon as the two environments agree on the
variable of that field (both absent, or both present with the same value),
whatever the other variables hold; ConfigPath is the same as soon as they agree
on both GOKAPI_CONFIG_DIR and GOKAPI_CONFIG_FILE. -/
theorem New_fields_independent (intSize : Nat) (caseTable : Char → Char) (env1 env2 : Env) :
    ∃ e1 e2, New intSize caseTable env1 = .ok e1 ∧ New intSize caseTable env2 = .ok e2 ∧
      (env1 "GOKAPI_CONFIG_DIR" = env2 "GOKAPI_CONFIG_DIR" → e1.ConfigDir = e2.ConfigDir) ∧
      (env1 "GOKAPI_CONFIG_FILE" = env2 "GOKAPI_CONFIG_FILE" → e1.ConfigFile = e2.ConfigFile) ∧
      (env1 "GOKAPI_DATA_DIR" = env2 "GOKAPI_DATA_DIR" → e1.DataDir = e2.DataDir) ∧
      (env1 "GOKAPI_USERNAME" = env2 "GOKAPI_USERNAME" → e1.AdminName = e2.AdminName) ∧
      (env1 "GOKAPI_PASSWORD" = env2 "GOKAPI_PASSWORD" → e1.AdminPassword = e2.AdminPassword) ∧
      (env1 "GOKAPI_PORT" = env2 "GOKAPI_PORT" → e1.WebserverPort = e2.WebserverPort) ∧
      (env1 "GOKAPI_LOCALHOST" = env2 "GOKAPI_LOCALHOST" → e1.WebserverLocalhost = e2.WebserverLocalhost) ∧
      (env1 "GOKAPI_EXTERNAL_URL" = env2 "GOKAPI_EXTERNAL_URL" → e1.ExternalUrl = e2.ExternalUrl) ∧
      (env1 "GOKAPI_REDIRECT_URL" = env2 "GOKAPI_REDIRECT_URL" → e1.RedirectUrl = e2.RedirectUrl) ∧
      (env1 "GOKAPI_SALT_ADMIN" = env2 "GOKAPI_SALT_ADMIN" → e1.SaltAdmin = e2.SaltAdmin) ∧
      (env1 "GOKAPI_SALT_FILES" = env2 "GOKAPI_SALT_FILES" → e1.SaltFiles = e2.SaltFiles) ∧
      (env1 "GOKAPI_LENGTH_ID" = env2 "GOKAPI_LENGTH_ID" → e1.LengthId = e2.LengthId) ∧
      (env1 "GOKAPI_MAX_MEMORY_UPLOAD_MB" = env2 "GOKAPI_MAX_MEMORY_UPLOAD_MB" → e1.MaxMemory = e2.MaxMemory) ∧
      (env1 "GOKAPI_USE_SSL" = env2 "GOKAPI_USE_SSL" → e1.UseSsl = e2.UseSsl) ∧
      (env1 "GOKAPI_AWS_BUCKET" = env2 "GOKAPI_AWS_BUCKET" → e1.AwsBucket = e2.AwsBucket) ∧
      (env1 "GOKAPI_AWS_REGION" = env2 "GOKAPI_AWS_REGION" → e1.AwsRegion = e2.AwsRegion) ∧
      (env1 "GOKAPI_AWS_KEY" = env2 "GOKAPI_AWS_KEY" → e1.AwsKeyId = e2.AwsKeyId) ∧
      (env1 "GOKAPI_AWS_KEY_SECRET" = env2 "GOKAPI_AWS_KEY_SECRET" → e1.AwsKeySecret = e2.AwsKeySecret) ∧
      (env1 "GOKAPI_AWS_ENDPOINT" = env2 "GOKAPI_AWS_ENDPOINT" → e1.AwsEndpoint = e2.AwsEndpoint) ∧
      (env1 "GOKAPI_CONFIG_DIR" = env2 "GOKAPI_CONFIG_DIR" →
        env1 "GOKAPI_CONFIG_FILE" = env2 "GOKAPI_CONFIG_FILE" →
        e1.ConfigPath = e2.ConfigPath) := by
  obtain ⟨a1, b1, ha1, hb1, hN1⟩ := New_returns intSize caseTable env1
  obtain ⟨a2, b2, ha2, hb2, hN2⟩ := New_returns intSize caseTable env2
  refine ⟨_, _, hN1, hN2, ?_, ?_, ?_, ?_, ?_, ?_, ?_, ?_, ?_, ?_, ?_, ?_, ?_, ?_, ?_, ?_, ?_,
    ?_, ?_, ?_⟩
  · intro h
    exact envString_congr env1 env2 "CONFIG_DIR" h
  · intro h
    exact envString_congr env1 env2 "CONFIG_FILE" h
  · intro h
    exact envString_congr env1 env2 "DATA_DIR" h
  · intro h
    exact envString_congr env1 env2 "USERNAME" h
  · intro h
    exact envString_congr env1 env2 "PASSWORD" h
  · intro h
    exact envString_congr env1 env2 "PORT" h
  · intro h
    exact envBool_congr caseTable env1 env2 "LOCALHOST" h
  · intro h
    exact envString_congr env1 env2 "EXTERNAL_URL" h
  · intro h
    exact envString_congr env1 env2 "REDIRECT_URL" h
  · intro h
    exact envString_congr env1 env2 "SALT_ADMIN" h
  · intro h
    exact envString_congr env1 env2 "SALT_FILES" h
  · intro h
    have hc := envInt_congr intSize env1 env2 "LENGTH_ID" 5 h
    rw [ha1, ha2] at hc
    exact Except.ok.inj hc
  · intro h
    have hc := envInt_congr intSize env1 env2 "MAX_MEMORY_UPLOAD_MB" 5 h
    rw [hb1, hb2] at hc
    exact Except.ok.inj hc
  · intro h
    exact envBool_congr caseTable env1 env2 "USE_SSL" h
  · intro h
    exact envString_congr env1 env2 "AWS_BUCKET" h
  · intro h
    exact envString_congr env1 env2 "AWS_REGION" h
  · intro h
    exact envString_congr env1 env2 "AWS_KEY" h
  · intro h
    exact envString_congr env1 env2 "AWS_KEY_SECRET" h
  · intro h
    exact envString_congr env1 env2 "AWS_ENDPOINT" h
  · intro hd hf
    show envString env1 "CONFIG_DIR" ++ "/" ++ envString env1 "CONFIG_FILE" =
      envString env2 "CONFIG_DIR" ++ "/" ++ envString env2 "CONFIG_FILE"
    rw [envString_congr env1 env2 "CONFIG_DIR" hd, envString_congr env1 env2 "CONFIG_FILE" hf]

/-! ## Remote storage, end to end -/

/-- A string variable without a default resolves to a non-empty string exactly
when it is present with a non-empty value. -/
theorem envString_ne_empty_iff (env : Env) (key : String)
    (hd : defaultValues.getString key = "") :
    envString env key ≠ "" ↔ ∃ v, env ("GOKAPI_" ++ key) = some v ∧ v ≠ "" := by
  cases h : env ("GOKAPI_" ++ key) with
  | none =>
    rw [envString_of_absent env key h, hd]
    constructor
    · intro h1
      exact absurd rfl h1
    · rintro ⟨v, hv, -⟩
      cases hv
  | some v =>
    have hs : envString env key = v := by simp only [envString, h]
    rw [hs]
    constructor
    · intro h1
      exact ⟨v, rfl, h1⟩
    · rintro ⟨v2, hv2, hne⟩
      cases hv2
      exact hne

/-- The value of `IsAwsProvided` on the record of `New`, from the environment. -/
theorem New_IsAwsProvided (intSize : Nat) (caseTable : Char → Char) (env : Env) :
    ∃ e, New intSize caseTable env = .ok e ∧
      (e.IsAwsProvided = true ↔
        (∃ v, env "GOKAPI_AWS_BUCKET" = some v ∧ v ≠ "") ∧
        (∃ v, env "GOKAPI_AWS_REGION" = some v ∧ v ≠ "") ∧
        (∃ v, env "GOKAPI_AWS_KEY" = some v ∧ v ≠ "") ∧
        (∃ v, env "GOKAPI_AWS_KEY_SECRET" = some v ∧ v ≠ "")) := by
  obtain ⟨a, b, -, -, hN⟩ := New_returns intSize caseTable env
  refine ⟨_, hN, ?_⟩
  simp only [Environment.IsAwsProvided, Bool.and_eq_true, bne_iff_ne, ne_eq, and_assoc]
  have h1 := envString_ne_empty_iff env "AWS_BUCKET" rfl
  have h2 := envString_ne_empty_iff env "AWS_REGION" rfl
  have h3 := envString_ne_empty_iff env "AWS_KEY" rfl
  have h4 := envString_ne_empty_iff env "AWS_KEY_SECRET" rfl
  simp only [ne_eq] at h1 h2 h3 h4
  rw [h1, h2, h3, h4]
  rfl

/-- An environment that agrees with `env` on the four credential variables
gives a record with the same `IsAwsProvided`. -/
theorem New_IsAwsProvided_congr (intSize : Nat) (caseTable : Char → Char) (env env2 : Env)
    (h1 : env2 "GOKAPI_AWS_BUCKET" = env "GOKAPI_AWS_BUCKET")
    (h2 : env2 "GOKAPI_AWS_REGION" = env "GOKAPI_AWS_REGION")
    (h3 : env2 "GOKAPI_AWS_KEY" = env "GOKAPI_AWS_KEY")
    (h4 : env2 "GOKAPI_AWS_KEY_SECRET" = env "GOKAPI_AWS_KEY_SECRET") :
    ∃ e e2, New intSize caseTable env = .ok e ∧ New intSize caseTable env2 = .ok e2 ∧
      e2.IsAwsProvided = e.IsAwsProvided := by
  obtain ⟨a, b, -, -, hN⟩ := New_returns intSize caseTable env
  obtain ⟨a2, b2, -, -, hN2⟩ := New_returns intSize caseTable env2
  refine ⟨_, _, hN, hN2, ?_⟩
  show (envString env2 "AWS_BUCKET" != "" && envString env2 "AWS_REGION" != "" &&
      envString env2 "AWS_KEY" != "" && envString env2 "AWS_KEY_SECRET" != "") =
    (envString env "AWS_BUCKET" != "" && envString env "AWS_REGION" != "" &&
      envString env "AWS_KEY" != "" && envString env "AWS_KEY_SECRET" != "")
  rw [envString_congr env2 env "AWS_BUCKET" h1, envString_congr env2 env "AWS_REGION" h2,
    envString_congr env2 env "AWS_KEY" h3, envString_congr env2 env "AWS_KEY_SECRET" h4]

/-- C16: in every environment the record of `New` has `IsAwsProvided` true
exactly when GOKAPI_AWS_BUCKET, GOKAPI_AWS_REGION, GOKAPI_AWS_KEY and
GOKAPI_AWS_KEY_SECRET are all present with non-empty values; it is false on the
empty environment; setting GOKAPI_AWS_ENDPOINT to any value, or unsetting it,
does not change it. -/
theorem New_IsAwsProvided_end_to_end (intSize : Nat) (caseTable : Char → Char) (env : Env) :
    ∃ e, New intSize caseTable env = .ok e ∧
      (e.IsAwsProvided = true ↔
        (∃ v, env "GOKAPI_AWS_BUCKET" = some v ∧ v ≠ "") ∧
        (∃ v, env "GOKAPI_AWS_REGION" = some v ∧ v ≠ "") ∧
        (∃ v, env "GOKAPI_AWS_KEY" = some v ∧ v ≠ "") ∧
        (∃ v, env "GOKAPI_AWS_KEY_SECRET" = some v ∧ v ≠ "")) ∧
      (∃ e0, New intSize caseTable emptyEnv = .ok e0 ∧ e0.IsAwsProvided = false) ∧
      (∀ endpoint : String, ∃ e2,
        New intSize caseTable (setenv env "GOKAPI_AWS_ENDPOINT" endpoint) = .ok e2 ∧
        e2.IsAwsProvided = e.IsAwsProvided) ∧
      (∃ e3, New intSize caseTable (unsetenv env "GOKAPI_AWS_ENDPOINT") = .ok e3 ∧
        e3.IsAwsProvided = e.IsAwsProvided) := by
  obtain ⟨e, hN, hiff⟩ := New_IsAwsProvided intSize caseTable env
  refine ⟨e, hN, hiff, ⟨_, rfl, rfl⟩, ?_, ?_⟩
  · intro endpoint
    obtain ⟨e1, e2, hN1, hN2, heq⟩ := New_IsAwsProvided_congr intSize caseTable env
      (setenv env "GOKAPI_AWS_ENDPOINT" endpoint) rfl rfl rfl rfl
    rw [hN] at hN1
    cases hN1
    exact ⟨e2, hN2, heq⟩
  · obtain ⟨e1, e3, hN1, hN3, heq⟩ := New_IsAwsProvided_congr intSize caseTable env
      (unsetenv env "GOKAPI_AWS_ENDPOINT") rfl rfl rfl rfl
    rw [hN] at hN1
    cases hN1
    exact ⟨e3, hN3, heq⟩

/-! ## Numbers outside the range of `int` -/

/-- A decimal digit is neither of the two sign characters. -/
theorem isDigit_not_sign (c : Char) (h : isDigit c = true) :
    (c == '-') = false ∧ (c == '+') = false := by
  simp only [isDigit, Bool.and_eq_true, decide_eq_true_eq] at h
  constructor
  · rw [beq_eq_false_iff_ne]
    rintro rfl
    exact absurd h.1 (by decide)
  · rw [beq_eq_false_iff_ne]
    rintro rfl
    exact absurd h.1 (by decide)

/-- C17: when `GOKAPI_<key>` is present with a value made of an optional sign
`+` or `-` and one or more decimal digits, and the number so written lies
outside `[-2^(intSize-1), 2^(intSize-1) - 1]`, `strconv.Atoi` fails and `envInt`
returns -1, for every key and every `minValue`: the number is neither wrapped
nor clamped. -/
theorem envInt_out_of_range (intSize : Nat) (env : Env) (key v : String) (minValue : Int)
    (sign ds : List Char)
    (hv : env ("GOKAPI_" ++ key) = some v)
    (hdata : v.data = sign ++ ds)
    (hsign : sign = [] ∨ sign = ['+'] ∨ sign = ['-'])
    (hne : ds ≠ [])
    (hdig : ∀ c ∈ ds, isDigit c = true)
    (hrange :
      (if sign = ['-'] then -(digitsValue ds : Int) else (digitsValue ds : Int))
          < -((2 : Int) ^ (intSize - 1)) ∨
        (2 : Int) ^ (intSize - 1) - 1 <
          (if sign = ['-'] then -(digitsValue ds : Int) else (digitsValue ds : Int))) :
    Atoi intSize v = none ∧ envInt intSize env key minValue = .ok (-1) := by
  have hA : Atoi intSize v = none := by
    have hpow : ((2 ^ (intSize - 1) : Nat) : Int) = (2 : Int) ^ (intSize - 1) := by
      push_cast
      rfl
    have hpos : 0 < 2 ^ (intSize - 1) := Nat.two_pow_pos (intSize - 1)
    have hall : ds.all isDigit = true := List.all_eq_true.mpr hdig
    have hemp : ds.isEmpty = false := by
      cases ds with
      | nil => exact absurd rfl hne
      | cons _ _ => rfl
    rcases hsign with rfl | rfl | rfl
    · cases ds with
      | nil => exact absurd rfl hne
      | cons c cs =>
        obtain ⟨hm, hp⟩ := isDigit_not_sign c (hdig c (List.mem_cons_self c cs))
        have hge : digitsValue (c :: cs) ≥ 2 ^ (intSize - 1) := by
          simp only [List.cons_ne_self, if_false, reduceCtorEq] at hrange
          omega
        simp only [Atoi, hdata, List.nil_append, hm, hp, Bool.or_self, Bool.false_eq_true,
          if_false, hemp, hall, Bool.not_true, hge, if_true]
    · have hge : digitsValue ds ≥ 2 ^ (intSize - 1) := by
        have hs : ¬ (['+'] = ['-']) := by decide
        simp only [hs, if_false] at hrange
        omega
      have h1 : ('+' == '-') = false := by decide
      have h2 : ('+' == '+') = true := by decide
      simp only [Atoi, hdata, List.singleton_append, h1, h2, Bool.or_true, if_true,
        Bool.false_eq_true, if_false, hemp, hall, Bool.not_true, Bool.or_self, hge]
    · have hgt : digitsValue ds > 2 ^ (intSize - 1) := by
        simp only [if_true] at hrange
        omega
      have h1 : ('-' == '-') = true := by decide
      simp only [Atoi, hdata, List.singleton_append, h1, Bool.true_or, if_true,
        Bool.false_eq_true, if_false, hemp, hall, Bool.not_true, Bool.or_self, hgt]
  exact ⟨hA, by rw [envInt_of_present intSize env key v minValue hv, hA]⟩

/-- Witness for C17: on 64 bits "99999999999999999999" and
"-9223372036854775809" give -1 whatever the floor, on 32 bits "+2147483648"
does; the two ends of the 64-bit range still parse. -/
theorem envInt_out_of_range_witness :
    (Atoi 64 "99999999999999999999" = none ∧
      envInt 64 (setenv emptyEnv "GOKAPI_LENGTH_ID" "99999999999999999999") "LENGTH_ID" 5
        = .ok (-1)) ∧
    (Atoi 64 "-9223372036854775809" = none ∧
      envInt 64 (setenv emptyEnv "GOKAPI_MAX_MEMORY_UPLOAD_MB" "-9223372036854775809")
        "MAX_MEMORY_UPLOAD_MB" (-100) = .ok (-1)) ∧
    (Atoi 32 "+2147483648" = none ∧
      envInt 32 (setenv emptyEnv "GOKAPI_LENGTH_ID" "+2147483648") "LENGTH_ID" 5 = .ok (-1)) ∧
    Atoi 64 "9223372036854775807" = some 9223372036854775807 ∧
    Atoi 64 "-9223372036854775808" = some (-9223372036854775808) :=
  ⟨envInt_out_of_range 64 (setenv emptyEnv "GOKAPI_LENGTH_ID" "99999999999999999999")
      "LENGTH_ID" "99999999999999999999" 5 [] "99999999999999999999".data rfl rfl
      (Or.inl rfl) (by decide) (by decide) (Or.inr (by decide)),
   envInt_out_of_range 64
      (setenv emptyEnv "GOKAPI_MAX_MEMORY_UPLOAD_MB" "-9223372036854775809")
      "MAX_MEMORY_UPLOAD_MB" "-9223372036854775809" (-100) ['-'] "9223372036854775809".data
      rfl rfl (Or.inr (Or.inr rfl)) (by decide) (by decide) (Or.inl (by decide)),
   envInt_out_of_range 32 (setenv emptyEnv "GOKAPI_LENGTH_ID" "+2147483648")
      "LENGTH_ID" "+2147483648" 5 ['+'] "2147483648".data rfl rfl
      (Or.inr (Or.inl rfl)) (by decide) (by decide) (Or.inr (by decide)),
   rfl, rfl⟩

/-! ## The JSON form of a file record -/

/-- Characters that stand for themselves are left as they are by the escaping. -/
theorem flatten_escape_of_plain (l : List Char) (h : ∀ c ∈ l, jsonEscapeChar c = [c]) :
    (l.map jsonEscapeChar).flatten = l := by
  induction l with
  | nil => rfl
  | cons c cs ih =>
    rw [List.map_cons, List.flatten_cons, h c (List.mem_cons_self c cs),
      ih (fun d hd => h d (List.mem_cons_of_mem c hd))]
    rfl

/-- A string that needs no escaping is serialized as itself between double
quotes. -/
theorem jsonString_of_plain (s : String) (h : needsNoEscape s = true) :
    jsonString s = "\"" ++ s ++ "\"" := by
  have h2 : ∀ c ∈ s.data, jsonEscapeChar c = [c] := by
    intro c hc
    have := List.all_eq_true.mp h c hc
    exact eq_of_beq this
  unfold jsonString
  rw [flatten_escape_of_plain s.data h2]

/-- Joining two strings that need no escaping gives one that needs none. -/
theorem needsNoEscape_append (a b : String) (ha : needsNoEscape a = true)
    (hb : needsNoEscape b = true) : needsNoEscape (a ++ b) = true := by
  unfold needsNoEscape at *
  rw [String.data_append, List.all_append, ha, hb]
  rfl

set_option maxRecDepth 100000 in
/-- C12: for every record and every `baseUrl` whose strings need no JSON
escaping, `ToJsonResult` is exactly one JSON object with the keys Result,
FileInfo, Url, HotlinkUrl in this order: Result is "OK"; FileInfo holds Id,
Name, Size, SHA256, ExpireAt, ExpireAtString, DownloadsRemaining, PasswordHash,
HotlinkId, ContentType, AwsBucket in this order, ExpireAt and
DownloadsRemaining as numbers and the others as strings; Url is `baseUrl`
followed by "d?id=" and HotlinkUrl is `baseUrl` followed by "hotlink/", without
the Id or the HotlinkId of the record. -/
theorem ToJsonResult_exact (f : File) (baseUrl : String)
    (hplain : ∀ s ∈ [f.Id, f.Name, f.Size, f.SHA256, f.ExpireAtString, f.PasswordHash,
      f.HotlinkId, f.ContentType, f.AwsBucket, baseUrl], needsNoEscape s = true) :
    f.ToJsonResult baseUrl =
      "\x7b\"Result\":\"OK\",\"FileInfo\":\x7b\"Id\":\"" ++ f.Id ++
      "\",\"Name\":\"" ++ f.Name ++
      "\",\"Size\":\"" ++ f.Size ++
      "\",\"SHA256\":\"" ++ f.SHA256 ++
      "\",\"ExpireAt\":" ++ jsonNumber f.ExpireAt ++
      ",\"ExpireAtString\":\"" ++ f.ExpireAtString ++
      "\",\"DownloadsRemaining\":" ++ jsonNumber f.DownloadsRemaining ++
      ",\"PasswordHash\":\"" ++ f.PasswordHash ++
      "\",\"HotlinkId\":\"" ++ f.HotlinkId ++
      "\",\"ContentType\":\"" ++ f.ContentType ++
      "\",\"AwsBucket\":\"" ++ f.AwsBucket ++
      "\"\x7d,\"Url\":\"" ++ baseUrl ++ "d?id=" ++
      "\",\"HotlinkUrl\":\"" ++ baseUrl ++ "hotlink/" ++ "\"\x7d" := by
  have h1 := jsonString_of_plain f.Id (hplain _ (by simp))
  have h2 := jsonString_of_plain f.Name (hplain _ (by simp))
  have h3 := jsonString_of_plain f.Size (hplain _ (by simp))
  have h4 := jsonString_of_plain f.SHA256 (hplain _ (by simp))
  have h5 := jsonString_of_plain f.ExpireAtString (hplain _ (by simp))
  have h6 := jsonString_of_plain f.PasswordHash (hplain _ (by simp))
  have h7 := jsonString_of_plain f.HotlinkId (hplain _ (by simp))
  have h8 := jsonString_of_plain f.ContentType (hplain _ (by simp))
  have h9 := jsonString_of_plain f.AwsBucket (hplain _ (by simp))
  have hb : needsNoEscape baseUrl = true := hplain _ (by simp)
  have hu := jsonString_of_plain (baseUrl ++ "d?id=") (needsNoEscape_append _ _ hb rfl)
  have hh := jsonString_of_plain (baseUrl ++ "hotlink/") (needsNoEscape_append _ _ hb rfl)
  simp only [File.ToJsonResult, File.fileInfoJson, jsonObject, List.map_cons, List.map_nil,
    String.intercalate, String.intercalate.go, h1, h2, h3, h4, h5, h6, h7, h8, h9, hu, hh]
  apply String.ext
  simp only [String.data_append, List.append_assoc]
  rfl

set_option maxRecDepth 100000 in
/-- Witness for C12: for the record of `TestToJsonResult` and the base URL
"serverurl/" the output is the string the test asserts. -/
theorem ToJsonResult_exact_witness :
    testFile.ToJsonResult "serverurl/" =
      "\x7b\"Result\":\"OK\",\"FileInfo\":\x7b\"Id\":\"testId\",\"Name\":\"testName\",\"Size\":\"10 B\",\"SHA256\":\"sha256\",\"ExpireAt\":50,\"ExpireAtString\":\"future\",\"DownloadsRemaining\":1,\"PasswordHash\":\"pwhash\",\"HotlinkId\":\"hotlinkid\",\"ContentType\":\"text/html\",\"AwsBucket\":\"\"\x7d,\"Url\":\"serverurl/d?id=\",\"HotlinkUrl\":\"serverurl/hotlink/\"\x7d" :=
  (ToJsonResult_exact testFile "serverurl/" (by decide)).trans rfl

set_option maxRecDepth 100000 in
/-- C13: for every record whose AwsBucket is empty and every `baseUrl`, the
FileInfo object of `ToJsonResult` ends with the member "AwsBucket":"" after its
ten other members: the key is there with an empty string as its value, and the
output reads `,"AwsBucket":""` and the closing brace right before the Url
member. -/
theorem ToJsonResult_empty_AwsBucket (f : File) (baseUrl : String) (h : f.AwsBucket = "") :
    f.ToJsonResult baseUrl = jsonObject [
      ("Result", jsonString "OK"),
      ("FileInfo", jsonObject (f.membersBeforeAwsBucket ++ [("AwsBucket", "\"\"")])),
      ("Url", jsonString (baseUrl ++ "d?id=")),
      ("HotlinkUrl", jsonString (baseUrl ++ "hotlink/"))] ∧
    f.membersBeforeAwsBucket.length = 10 ∧
    (∀ m ∈ f.membersBeforeAwsBucket, m.1 ≠ "AwsBucket") ∧
    ∃ before, f.ToJsonResult baseUrl =
      before ++ ",\"AwsBucket\":\"\"\x7d,\"Url\":" ++ jsonString (baseUrl ++ "d?id=") ++
        ",\"HotlinkUrl\":" ++ jsonString (baseUrl ++ "hotlink/") ++ "\x7d" := by
  have he : jsonString f.AwsBucket = "\"\"" := by rw [h]; rfl
  refine ⟨?_, rfl, ?_, ?_⟩
  · simp only [File.ToJsonResult, File.fileInfoJson, File.membersBeforeAwsBucket, he,
      List.cons_append, List.nil_append]
  · intro m hm
    simp only [File.membersBeforeAwsBucket, List.mem_cons, List.mem_singleton,
      List.not_mem_nil, or_false] at hm
    rcases hm with rfl | rfl | rfl | rfl | rfl | rfl | rfl | rfl | rfl | rfl <;>
      (dsimp only; decide)
  · refine ⟨"\x7b\"Result\":\"OK\",\"FileInfo\":\x7b\"Id\":" ++ jsonString f.Id ++
      ",\"Name\":" ++ jsonString f.Name ++
      ",\"Size\":" ++ jsonString f.Size ++
      ",\"SHA256\":" ++ jsonString f.SHA256 ++
      ",\"ExpireAt\":" ++ jsonNumber f.ExpireAt ++
      ",\"ExpireAtString\":" ++ jsonString f.ExpireAtString ++
      ",\"DownloadsRemaining\":" ++ jsonNumber f.DownloadsRemaining ++
      ",\"PasswordHash\":" ++ jsonString f.PasswordHash ++
      ",\"HotlinkId\":" ++ jsonString f.HotlinkId ++
      ",\"ContentType\":" ++ jsonString f.ContentType, ?_⟩
    simp only [File.ToJsonResult, File.fileInfoJson, jsonObject, List.map_cons, List.map_nil,
      String.intercalate, String.intercalate.go, he]
    apply String.ext
    simp only [String.data_append, List.append_assoc]
    rfl

set_option maxRecDepth 100000 in
/-- Witness for C13: the record of the test, whose AwsBucket is empty, with a
base URL holding a character that is escaped. -/
theorem ToJsonResult_empty_AwsBucket_witness :
    testFile.AwsBucket = "" ∧
    (testFile.ToJsonResult "a&b/" = jsonObject [
      ("Result", jsonString "OK"),
      ("FileInfo", jsonObject (testFile.membersBeforeAwsBucket ++ [("AwsBucket", "\"\"")])),
      ("Url", jsonString ("a&b/" ++ "d?id=")),
      ("HotlinkUrl", jsonString ("a&b/" ++ "hotlink/"))] ∧
    testFile.membersBeforeAwsBucket.length = 10 ∧
    (∀ m ∈ testFile.membersBeforeAwsBucket, m.1 ≠ "AwsBucket") ∧
    ∃ before, testFile.ToJsonResult "a&b/" =
      before ++ ",\"AwsBucket\":\"\"\x7d,\"Url\":" ++ jsonString ("a&b/" ++ "d?id=") ++
        ",\"HotlinkUrl\":" ++ jsonString ("a&b/" ++ "hotlink/") ++ "\x7d") :=
  ⟨rfl, ToJsonResult_empty_AwsBucket testFile "a&b/" rfl⟩

end Gokapi
